import Mathlib

/-
  Verification development for the django-bulk-lifecycle repository.

  Embedded source files:
    * src/django_bulk_lifecycle/priority.py  (Priority)
    * src/django_bulk_hooks/manager.py       (BulkLifecycleManager)

  The manager's collaborators (the django ORM's transaction/batch primitives,
  and the sibling modules django_bulk_hooks.engine / context / constants that
  are not under src/) are modelled from the spec's external-interface
  description: storage primitives and the combined effect of one hook chain
  are abstract, possibly-failing functions supplied in an environment, and
  every hook invocation / storage call the manager makes is recorded in an
  event trace.  `transaction.atomic` is modelled as: run the body; if it
  raises, the persisted state reverts to the state at entry (the trace of
  events that happened before the raise is kept, since those calls did occur).
-/

set_option linter.unusedVariables false

/-- From src/django_bulk_lifecycle/priority.py: named hook priorities. -/
inductive Priority
  | HIGHEST
  | HIGH
  | NORMAL
  | LOW
  | LOWEST
deriving DecidableEq, Repr

/-- Integer value of a priority (`IntEnum` values in the source). -/
def Priority.value : Priority → Nat
  | .HIGHEST => 0
  | .HIGH => 25
  | .NORMAL => 50
  | .LOW => 75
  | .LOWEST => 100

/-- The six lifecycle events (django_bulk_hooks.constants). -/
inductive LifeEvent
  | beforeCreate
  | afterCreate
  | beforeUpdate
  | afterUpdate
  | beforeDelete
  | afterDelete
deriving DecidableEq, Repr

/-- An in-memory entity instance.  `ofType` is its runtime model class name
(`isinstance(obj, model_cls)` is modelled as name equality), `pk` its primary
key (`None` = `none`; Python truthiness of an integer pk is `≠ 0`), `data`
its remaining attributes. -/
structure Obj where
  ofType : String
  pk : Option Int
  data : List (String × Int)
deriving DecidableEq, Repr

/-- A bound model class: its name, the names of its `_meta.fields` (primary
key included, as in django), and which of those is the primary-key field. -/
structure ModelCls where
  name : String
  metaFields : List String
  pkField : String
deriving DecidableEq, Repr

/-- Modelled from the spec: `TriggerContext` (django_bulk_hooks.context is not
under src/) is a per-operation value object carrying the target entity type;
the manager constructs one per call and passes the same instance to the
BEFORE and AFTER phases. -/
structure TriggerContext where
  entity_type : String
deriving DecidableEq, Repr

/-- Persisted storage state: the rows currently in the database. -/
structure DB where
  rows : List Obj
deriving DecidableEq, Repr

/-- Errors surfaced by a manager call: the `TypeError` raised by the
manager's own instance-type validation (carrying the raising method and the
expected model name; the Python message's set of offending type names is
elided), or any error raised by a hook chain / storage primitive. -/
inductive Err
  | typeError (method : String) (expected : String)
  | external (tag : String)
deriving DecidableEq, Repr

/-- Observable events of one manager call, in order: a hook-phase invocation
(`engine.run`), the read of pre-mutation originals, and the raw storage
primitives (`super().bulk_create`, `super().bulk_update`, pk-filtered
`.delete()`). -/
inductive Ev
  | hook (ev : LifeEvent) (objs : List Obj) (originals : Option (List Obj)) (ctx : TriggerContext)
  | fetchOriginals (pks : List (Option Int))
  | rawCreate (chunk : List Obj)
  | rawUpdate (chunk : List Obj) (fields : List String)
  | rawDelete (pks : List Int)
deriving DecidableEq, Repr

def isHookEv : Ev → Bool
  | .hook _ _ _ _ => true
  | _ => false

def isFetchEv : Ev → Bool
  | .fetchOriginals _ => true
  | _ => false

def isRawUpdateEv : Ev → Bool
  | .rawUpdate _ _ => true
  | _ => false

/-- Modelled from the spec: the external collaborators (spec §6).  `hooks` is
the combined effect of `engine.run(model_cls, event, objs, originals, ctx)`
for one event — django_bulk_hooks.engine is not under src/, so the whole
resolved hook chain is abstracted as one function that may mutate storage
(hooks may perform side effects) or raise.  `rawCreate` / `rawUpdate` /
`rawDelete` are the storage batch primitives (`raw_bulk_insert`,
`raw_bulk_update`, `raw_bulk_delete_by_pk`), each of which may raise;
`rawCreate` returns the inserted, identity-populated instances. -/
structure Env where
  hooks : ModelCls → LifeEvent → List Obj → Option (List Obj) → TriggerContext → DB → Except Err DB
  rawCreate : DB → List Obj → Option Nat → Bool → Except Err (DB × List Obj)
  rawUpdate : DB → List Obj → List String → Option Nat → Except Err DB
  rawDelete : DB → List Int → Except Err DB

/-- A manager computation: from a storage state, an outcome, the resulting
storage state, and the trace of events that occurred. -/
abbrev M (α : Type) : Type := DB → Except Err α × DB × List Ev

/-- `@transaction.atomic`: if the body raises, every storage effect of the
call is rolled back (state reverts to the entry state); the error propagates
unchanged.  The event trace is kept — those calls did happen before the
raise. -/
def atomicM {α : Type} (f : M α) : M α := fun σ =>
  match f σ with
  | (.error e, _, tr) => (.error e, σ, tr)
  | (.ok a, σ', tr) => (.ok a, σ', tr)

/-- `model_cls.objects.filter(pk__in=pks)`: the rows of this model whose
(non-null) primary key appears in `pks`; a SQL `IN` never matches NULL. -/
def fetchByPks (model : ModelCls) (σ : DB) (pks : List (Option Int)) : List Obj :=
  σ.rows.filter (fun r => r.ofType == model.name && r.pk.isSome && pks.contains r.pk)

/-- `list(self.all())`: every persisted row of the bound model. -/
def managerAll (model : ModelCls) (σ : DB) : List Obj :=
  σ.rows.filter (fun r => r.ofType == model.name)

/-- `setattr(obj, key, value)`. -/
def assocSet : List (String × Int) → String → Int → List (String × Int)
  | [], k, v => [(k, v)]
  | (k', v') :: rest, k, v =>
    if k' == k then (k, v) :: rest else (k', v') :: assocSet rest k v

def setAttr (o : Obj) (k : String) (v : Int) : Obj :=
  { o with data := assocSet o.data k v }

/-- Python truthiness of `obj.pk` for an integer-or-None primary key:
`None` and `0` are falsy, every other integer truthy. -/
def pkTruthy : Option Int → Bool
  | none => false
  | some v => v != 0

namespace BulkLifecycleManager

/-- `CHUNK_SIZE = 200` (src/django_bulk_hooks/manager.py line 16). -/
def CHUNK_SIZE : Nat := 200

/-- The chunks produced by `for i in range(0, len(objs), n): objs[i:i+n]`:
`ceil (len / n)` slices, the i-th being `objs[i*n : i*n + n]`. -/
def chunksOf {α : Type} (n : Nat) (l : List α) : List (List α) :=
  (List.range ((l.length + n - 1) / n)).map (fun i => (l.drop (i * n)).take n)

/-- The chunk loop of `bulk_update`: one `super().bulk_update(chunk, fields,
batch_size=batch_size)` per chunk, stopping at the first storage error. -/
def updateChunks (env : Env) (fields : List String) (bs : Option Nat) :
    List (List Obj) → DB → Except Err Unit × DB × List Ev
  | [], σ => (.ok (), σ, [])
  | c :: cs, σ =>
    match env.rawUpdate σ c fields bs with
    | .error e => (.error e, σ, [Ev.rawUpdate c fields])
    | .ok σ1 =>
      let r := updateChunks env fields bs cs σ1
      (r.1, r.2.1, Ev.rawUpdate c fields :: r.2.2)

/-- The chunk loop of `bulk_create`: one `super().bulk_create(chunk, ...)`
per chunk, accumulating the returned (identity-populated) instances in input
order, stopping at the first storage error. -/
def createChunks (env : Env) (bs : Option Nat) (ic : Bool) :
    List (List Obj) → DB → Except Err (List Obj) × DB × List Ev
  | [], σ => (.ok [], σ, [])
  | c :: cs, σ =>
    match env.rawCreate σ c bs ic with
    | .error e => (.error e, σ, [Ev.rawCreate c])
    | .ok p =>
      let r := createChunks env bs ic cs p.1
      (r.1.map (fun rest => p.2 ++ rest), r.2.1, Ev.rawCreate c :: r.2.2)

/-- `BulkLifecycleManager.bulk_update` (manager.py lines 21-48):
empty input short-circuits; every element must be an instance of the bound
model; unless bypassed, the originals are fetched by pk and BEFORE_UPDATE
runs once over the whole batch; the write happens in chunks of CHUNK_SIZE;
unless bypassed, AFTER_UPDATE runs once with the same objs, originals and
context; returns objs.  The whole method is `@transaction.atomic`. -/
def bulk_update (env : Env) (model : ModelCls) (objs : List Obj)
    (fields : List String) (bs : Option Nat) (bypassHooks : Bool) : M (List Obj) :=
  atomicM fun σ =>
    if objs.isEmpty then (.ok [], σ, [])
    else if objs.any (fun o => o.ofType != model.name) then
      (.error (Err.typeError "bulk_update" model.name), σ, [])
    else if bypassHooks then
      match updateChunks env fields bs (chunksOf CHUNK_SIZE objs) σ with
      | (.error e, σ1, tr) => (.error e, σ1, tr)
      | (.ok _, σ1, tr) => (.ok objs, σ1, tr)
    else
      let pks := objs.map (fun o => o.pk)
      let originals := fetchByPks model σ pks
      let ctx : TriggerContext := ⟨model.name⟩
      match env.hooks model .beforeUpdate objs (some originals) ctx σ with
      | .error e =>
        (.error e, σ,
          [Ev.fetchOriginals pks, Ev.hook .beforeUpdate objs (some originals) ctx])
      | .ok σ1 =>
        match updateChunks env fields bs (chunksOf CHUNK_SIZE objs) σ1 with
        | (.error e, σ2, trC) =>
          (.error e, σ2,
            [Ev.fetchOriginals pks, Ev.hook .beforeUpdate objs (some originals) ctx] ++ trC)
        | (.ok _, σ2, trC) =>
          match env.hooks model .afterUpdate objs (some originals) ctx σ2 with
          | .error e =>
            (.error e, σ2,
              [Ev.fetchOriginals pks, Ev.hook .beforeUpdate objs (some originals) ctx]
                ++ trC ++ [Ev.hook .afterUpdate objs (some originals) ctx])
          | .ok σ3 =>
            (.ok objs, σ3,
              [Ev.fetchOriginals pks, Ev.hook .beforeUpdate objs (some originals) ctx]
                ++ trC ++ [Ev.hook .afterUpdate objs (some originals) ctx])

/-- `BulkLifecycleManager.bulk_create` (manager.py lines 50-78):
no empty-input short-circuit; type validation; unless bypassed, BEFORE_CREATE
runs once over the whole input batch with a fresh context; the write happens
in chunks of CHUNK_SIZE, accumulating results; unless bypassed, AFTER_CREATE
runs once over the accumulated results with the same context; returns the
accumulated results.  `@transaction.atomic`. -/
def bulk_create (env : Env) (model : ModelCls) (objs : List Obj)
    (bs : Option Nat) (ignoreConflicts : Bool) (bypassHooks : Bool) : M (List Obj) :=
  atomicM fun σ =>
    if objs.any (fun o => o.ofType != model.name) then
      (.error (Err.typeError "bulk_create" model.name), σ, [])
    else if bypassHooks then
      createChunks env bs ignoreConflicts (chunksOf CHUNK_SIZE objs) σ
    else
      let ctx : TriggerContext := ⟨model.name⟩
      match env.hooks model .beforeCreate objs none ctx σ with
      | .error e => (.error e, σ, [Ev.hook .beforeCreate objs none ctx])
      | .ok σ1 =>
        match createChunks env bs ignoreConflicts (chunksOf CHUNK_SIZE objs) σ1 with
        | (.error e, σ2, trC) =>
          (.error e, σ2, Ev.hook .beforeCreate objs none ctx :: trC)
        | (.ok result, σ2, trC) =>
          match env.hooks model .afterCreate result none ctx σ2 with
          | .error e =>
            (.error e, σ2,
              Ev.hook .beforeCreate objs none ctx :: trC
                ++ [Ev.hook .afterCreate result none ctx])
          | .ok σ3 =>
            (.ok result, σ3,
              Ev.hook .beforeCreate objs none ctx :: trC
                ++ [Ev.hook .afterCreate result none ctx])

/-- `BulkLifecycleManager.bulk_delete` (manager.py lines 80-103):
empty input short-circuits; type validation; unless bypassed, BEFORE_DELETE
runs over objs; one single (unchunked) storage delete of the non-null pks of
objs; unless bypassed, AFTER_DELETE runs over the original objs with the same
context; returns objs.  `@transaction.atomic`. -/
def bulk_delete (env : Env) (model : ModelCls) (objs : List Obj)
    (bs : Option Nat) (bypassHooks : Bool) : M (List Obj) :=
  atomicM fun σ =>
    if objs.isEmpty then (.ok [], σ, [])
    else if objs.any (fun o => o.ofType != model.name) then
      (.error (Err.typeError "bulk_delete" model.name), σ, [])
    else if bypassHooks then
      match env.rawDelete σ (objs.filterMap (fun o => o.pk)) with
      | .error e => (.error e, σ, [Ev.rawDelete (objs.filterMap (fun o => o.pk))])
      | .ok σ1 => (.ok objs, σ1, [Ev.rawDelete (objs.filterMap (fun o => o.pk))])
    else
      let ctx : TriggerContext := ⟨model.name⟩
      match env.hooks model .beforeDelete objs none ctx σ with
      | .error e => (.error e, σ, [Ev.hook .beforeDelete objs none ctx])
      | .ok σ1 =>
        match env.rawDelete σ1 (objs.filterMap (fun o => o.pk)) with
        | .error e =>
          (.error e, σ1,
            [Ev.hook .beforeDelete objs none ctx,
             Ev.rawDelete (objs.filterMap (fun o => o.pk))])
        | .ok σ2 =>
          match env.hooks model .afterDelete objs none ctx σ2 with
          | .error e =>
            (.error e, σ2,
              [Ev.hook .beforeDelete objs none ctx,
               Ev.rawDelete (objs.filterMap (fun o => o.pk)),
               Ev.hook .afterDelete objs none ctx])
          | .ok σ3 =>
            (.ok objs, σ3,
              [Ev.hook .beforeDelete objs none ctx,
               Ev.rawDelete (objs.filterMap (fun o => o.pk)),
               Ev.hook .afterDelete objs none ctx])

/-- Maps the outcome of an inner bulk call to the outcome of the wrapper
(`update`/`delete`/`save` discard the inner result and return their own). -/
def mapOutcome {α β : Type} (b : β) :
    Except Err α × DB × List Ev → Except Err β × DB × List Ev
  | (.error e, σ1, tr) => (.error e, σ1, tr)
  | (.ok _, σ1, tr) => (.ok b, σ1, tr)

/-- `BulkLifecycleManager.update` (manager.py lines 105-114): materializes
`list(self.all())`, empty set short-circuits to 0, applies each field/value
pair to every instance in memory, delegates to `bulk_update` with the touched
field names (hooks run), returns the count.  `@transaction.atomic`. -/
def update (env : Env) (model : ModelCls) (kwargs : List (String × Int)) : M Nat :=
  atomicM fun σ =>
    let objs := managerAll model σ
    if objs.isEmpty then (.ok 0, σ, [])
    else
      let objs2 := kwargs.foldl (fun acc kv => acc.map (fun o => setAttr o kv.1 kv.2)) objs
      mapOutcome objs.length
        (bulk_update env model objs2 (kwargs.map (fun kv => kv.1)) none false σ)

/-- `BulkLifecycleManager.delete` (manager.py lines 116-122): materializes
`list(self.all())`, empty set short-circuits to 0, else delegates to
`bulk_delete` (hooks run), returns the count.  `@transaction.atomic`. -/
def delete (env : Env) (model : ModelCls) : M Nat :=
  atomicM fun σ =>
    let objs := managerAll model σ
    if objs.isEmpty then (.ok 0, σ, [])
    else mapOutcome objs.length (bulk_delete env model objs none false σ)

/-- `BulkLifecycleManager.save` (manager.py lines 124-133): `if obj.pk:`
routes to `bulk_update([obj], fields=[f.name for f in obj._meta.fields if
f.name != "id"])`, else to `bulk_create([obj])`; returns obj.
`@transaction.atomic`. -/
def save (env : Env) (model : ModelCls) (obj : Obj) : M Obj :=
  atomicM fun σ =>
    if pkTruthy obj.pk then
      mapOutcome obj
        (bulk_update env model [obj]
          (model.metaFields.filter (fun f => f != "id")) none false σ)
    else
      mapOutcome obj (bulk_create env model [obj] none false false σ)

end BulkLifecycleManager

open BulkLifecycleManager

/- Concrete instances used by witnesses and counterexamples. -/

/-- An environment whose hook chains and storage primitives always succeed
and leave storage unchanged (`rawCreate` echoes its chunk back as the
inserted instances). -/
def envId : Env where
  hooks := fun _ _ _ _ _ σ => .ok σ
  rawCreate := fun σ c _ _ => .ok (σ, c)
  rawUpdate := fun σ _ _ _ => .ok σ
  rawDelete := fun σ _ => .ok σ

/-- An environment whose hook chains always raise. -/
def envBoom : Env where
  hooks := fun _ _ _ _ _ _ => .error (Err.external "boom")
  rawCreate := fun σ c _ _ => .ok (σ, c)
  rawUpdate := fun σ _ _ _ => .ok σ
  rawDelete := fun σ _ => .ok σ

/-- A model whose primary-key field is named `id`, as django defaults. -/
def M0 : ModelCls := ⟨"T", ["id", "val"], "id"⟩

/-- A model whose primary-key field is named `key`, not `id`. -/
def MK : ModelCls := ⟨"K", ["key", "val"], "key"⟩

def o1 : Obj := ⟨"T", some 1, []⟩

def o2 : Obj := ⟨"T", some 2, []⟩

def oZ : Obj := ⟨"T", some 0, []⟩

def oNone : Obj := ⟨"T", none, []⟩

def oK : Obj := ⟨"K", some 5, []⟩

/-- An instance of an unrelated model class. -/
def oBad : Obj := ⟨"U", some 7, []⟩

def db0 : DB := ⟨[]⟩

/-- A 201-element batch: spans two chunks of CHUNK_SIZE = 200. -/
def objs201 : List Obj := List.replicate 201 o1

/- ### Helper lemmas (shared across claims) -/

/-- A call might roll back: whenever it raises, the resulting storage state
is the entry state. -/
def rollsBack {α : Type} (x : M α) : Prop :=
  ∀ σ e σ' tr, x σ = (.error e, σ', tr) → σ' = σ

theorem atomicM_rollsBack {α : Type} (f : M α) : rollsBack (atomicM f) := by
  intro σ e σ' tr h
  unfold atomicM at h
  rcases hf : f σ with ⟨r, σ1, tr1⟩
  rw [hf] at h
  cases r with
  | error e1 =>
    simp at h
    exact h.2.1.symm
  | ok a => simp at h

theorem atomicM_trace {α : Type} (f : M α) (σ : DB) :
    (atomicM f σ).2.2 = (f σ).2.2 := by
  unfold atomicM
  rcases hf : f σ with ⟨r, σ1, tr1⟩
  cases r <;> simp

theorem atomicM_ok {α : Type} (f : M α) (σ : DB) (a : α) (σ' : DB) (tr : List Ev)
    (h : f σ = (.ok a, σ', tr)) : atomicM f σ = (.ok a, σ', tr) := by
  unfold atomicM
  rw [h]

theorem bulk_update_rollsBack (env : Env) (model : ModelCls) (objs : List Obj)
    (fields : List String) (bs : Option Nat) (byp : Bool) :
    rollsBack (bulk_update env model objs fields bs byp) :=
  atomicM_rollsBack _

theorem bulk_create_rollsBack (env : Env) (model : ModelCls) (objs : List Obj)
    (bs : Option Nat) (ic byp : Bool) :
    rollsBack (bulk_create env model objs bs ic byp) :=
  atomicM_rollsBack _

theorem bulk_delete_rollsBack (env : Env) (model : ModelCls) (objs : List Obj)
    (bs : Option Nat) (byp : Bool) :
    rollsBack (bulk_delete env model objs bs byp) :=
  atomicM_rollsBack _

theorem update_rollsBack (env : Env) (model : ModelCls) (kwargs : List (String × Int)) :
    rollsBack (update env model kwargs) :=
  atomicM_rollsBack _

theorem delete_rollsBack (env : Env) (model : ModelCls) :
    rollsBack (delete env model) :=
  atomicM_rollsBack _

theorem save_rollsBack (env : Env) (model : ModelCls) (obj : Obj) :
    rollsBack (save env model obj) :=
  atomicM_rollsBack _

/-- A batch with a mismatched element is non-empty. -/
theorem any_true_not_isEmpty {α : Type} (l : List α) (p : α → Bool)
    (h : l.any p = true) : l.isEmpty = false := by
  cases l with
  | nil => simp at h
  | cons a l => rfl

/-- Each of the three bulk methods fails fast with the type error on a
mismatched batch, for either value of `bypass_hooks`: no event occurs and
storage is unchanged. -/
theorem typeMismatch_general (env : Env) (model : ModelCls) (objs : List Obj)
    (fields : List String) (bs : Option Nat) (ic byp : Bool) (σ : DB)
    (h : objs.any (fun o => o.ofType != model.name) = true) :
    bulk_update env model objs fields bs byp σ
        = (.error (Err.typeError "bulk_update" model.name), σ, [])
      ∧ bulk_create env model objs bs ic byp σ
        = (.error (Err.typeError "bulk_create" model.name), σ, [])
      ∧ bulk_delete env model objs bs byp σ
        = (.error (Err.typeError "bulk_delete" model.name), σ, []) := by
  have hne := any_true_not_isEmpty objs (fun o => o.ofType != model.name) h
  refine ⟨?_, ?_, ?_⟩ <;>
    simp [bulk_update, bulk_create, bulk_delete, atomicM, hne, h]

/-- If every raw update succeeds, the chunk loop succeeds and its trace is
exactly one raw-update event per chunk, in order. -/
theorem updateChunks_ok (env : Env) (fields : List String) (bs : Option Nat)
    (hu : ∀ σ c, ∃ σ', env.rawUpdate σ c fields bs = .ok σ') :
    ∀ (cs : List (List Obj)) (σ : DB), ∃ σ',
      updateChunks env fields bs cs σ
        = (.ok (), σ', cs.map (fun c => Ev.rawUpdate c fields)) := by
  intro cs
  induction cs with
  | nil => intro σ; exact ⟨σ, rfl⟩
  | cons c cs ih =>
    intro σ
    obtain ⟨σ1, h1⟩ := hu σ c
    obtain ⟨σ2, h2⟩ := ih σ1
    exact ⟨σ2, by simp [updateChunks, h1, h2]⟩

/-- The chunk loop of `bulk_update` emits only raw-update events. -/
theorem updateChunks_trace_raw (env : Env) (fields : List String) (bs : Option Nat) :
    ∀ (cs : List (List Obj)) (σ : DB),
      ∀ e ∈ (updateChunks env fields bs cs σ).2.2, ∃ c f, e = Ev.rawUpdate c f := by
  intro cs
  induction cs with
  | nil => intro σ e he; simp [updateChunks] at he
  | cons c cs ih =>
    intro σ e he
    unfold updateChunks at he
    rcases hr : env.rawUpdate σ c fields bs with e1 | σ1 <;> rw [hr] at he <;> simp at he
    · exact ⟨c, fields, he⟩
    · rcases he with he | he
      · exact ⟨c, fields, he⟩
      · exact ih σ1 e he

/-- The chunk loop of `bulk_create` emits only raw-create events. -/
theorem createChunks_trace_raw (env : Env) (bs : Option Nat) (ic : Bool) :
    ∀ (cs : List (List Obj)) (σ : DB),
      ∀ e ∈ (createChunks env bs ic cs σ).2.2, ∃ c, e = Ev.rawCreate c := by
  intro cs
  induction cs with
  | nil => intro σ e he; simp [createChunks] at he
  | cons c cs ih =>
    intro σ e he
    unfold createChunks at he
    rcases hr : env.rawCreate σ c bs ic with e1 | p <;> rw [hr] at he <;> simp at he
    · exact ⟨c, he⟩
    · rcases he with he | he
      · exact ⟨c, he⟩
      · exact ih p.1 e he

/-- Filtering a trace of only raw events for hook events gives nothing. -/
theorem filter_hook_of_raw (tr : List Ev)
    (h : ∀ e ∈ tr, (∃ c f, e = Ev.rawUpdate c f) ∨ (∃ c, e = Ev.rawCreate c)
          ∨ (∃ p, e = Ev.rawDelete p)) :
    tr.filter isHookEv = [] ∧ tr.filter isFetchEv = [] := by
  constructor <;>
  · rw [List.filter_eq_nil_iff]
    intro e he
    rcases h e he with ⟨c, f, rfl⟩ | ⟨c, rfl⟩ | ⟨p, rfl⟩ <;> simp [isHookEv, isFetchEv]

/-- A trace made of raw-update events only: no hook events, and filtering
for raw-update events keeps everything. -/
theorem map_rawUpdate_filters (cs : List (List Obj)) (fields : List String) :
    (cs.map (fun c => Ev.rawUpdate c fields)).filter isHookEv = []
      ∧ (cs.map (fun c => Ev.rawUpdate c fields)).filter isRawUpdateEv
        = cs.map (fun c => Ev.rawUpdate c fields) := by
  induction cs with
  | nil => exact ⟨rfl, rfl⟩
  | cons c cs ih => simp [isHookEv, isRawUpdateEv, ih.1, ih.2]

/-- A non-empty list is not `isEmpty`. -/
theorem ne_nil_isEmpty_false {α : Type} (l : List α) (h : l ≠ []) :
    l.isEmpty = false := by
  cases l with
  | nil => exact absurd rfl h
  | cons a l => rfl

/-- `save` with a truthy pk is exactly the routed singleton `bulk_update`
with the source's `f.name != "id"` field list (result replaced by obj). -/
theorem save_eq_update (env : Env) (model : ModelCls) (obj : Obj) (σ : DB)
    (h : pkTruthy obj.pk = true) :
    save env model obj σ
      = mapOutcome obj (bulk_update env model [obj]
          (model.metaFields.filter (fun f => f != "id")) none false σ) := by
  unfold save atomicM
  rcases hbu : bulk_update env model [obj]
      (model.metaFields.filter (fun f => f != "id")) none false σ with ⟨r, σ1, tr⟩
  cases r with
  | error e =>
    have hσ := bulk_update_rollsBack env model [obj]
      (model.metaFields.filter (fun f => f != "id")) none false σ e σ1 tr hbu
    subst hσ
    simp [h, hbu, mapOutcome]
  | ok a => simp [h, hbu, mapOutcome]

/-- `save` with a falsy pk is exactly the routed singleton `bulk_create`
(result replaced by obj). -/
theorem save_eq_create (env : Env) (model : ModelCls) (obj : Obj) (σ : DB)
    (h : pkTruthy obj.pk = false) :
    save env model obj σ
      = mapOutcome obj (bulk_create env model [obj] none false false σ) := by
  unfold save atomicM
  rcases hbc : bulk_create env model [obj] none false false σ with ⟨r, σ1, tr⟩
  cases r with
  | error e =>
    have hσ := bulk_create_rollsBack env model [obj] none false false σ e σ1 tr hbc
    subst hσ
    simp [h, hbc, mapOutcome]
  | ok a => simp [h, hbc, mapOutcome]

/- ### Claim theorems -/

/-- C1: on a type-valid batch of more than 200 objects with hooks enabled
(and hook chains / raw updates succeeding), `bulk_update` invokes the
BEFORE_UPDATE phase exactly once with the entire batch and its originals and
the AFTER_UPDATE phase exactly once with the same batch, originals and
context, while the raw batch-update primitive runs once per chunk of at most
200 elements (at least two chunks here) — hooks are never per-chunk. -/
theorem bulk_update_hooks_whole_batch (env : Env) (model : ModelCls)
    (objs : List Obj) (fields : List String) (bs : Option Nat) (σ : DB)
    (hn : 200 < objs.length)
    (ht : objs.any (fun o => o.ofType != model.name) = false)
    (hh : ∀ ev os og c σ1, ∃ σ2, env.hooks model ev os og c σ1 = .ok σ2)
    (hu : ∀ σ1 c, ∃ σ2, env.rawUpdate σ1 c fields bs = .ok σ2) :
    ((bulk_update env model objs fields bs false σ).2.2).filter isHookEv
        = [Ev.hook .beforeUpdate objs
             (some (fetchByPks model σ (objs.map (fun o => o.pk)))) ⟨model.name⟩,
           Ev.hook .afterUpdate objs
             (some (fetchByPks model σ (objs.map (fun o => o.pk)))) ⟨model.name⟩]
      ∧ ((bulk_update env model objs fields bs false σ).2.2).filter isRawUpdateEv
        = (chunksOf CHUNK_SIZE objs).map (fun c => Ev.rawUpdate c fields)
      ∧ (∀ c ∈ chunksOf CHUNK_SIZE objs, c.length ≤ CHUNK_SIZE)
      ∧ 2 ≤ (chunksOf CHUNK_SIZE objs).length := by
  have hne : objs.isEmpty = false := by
    cases objs with
    | nil => simp at hn
    | cons a l => rfl
  obtain ⟨σ1, h1⟩ := hh .beforeUpdate objs
    (some (fetchByPks model σ (objs.map (fun o => o.pk)))) ⟨model.name⟩ σ
  obtain ⟨σ2, h2⟩ := updateChunks_ok env fields bs hu (chunksOf CHUNK_SIZE objs) σ1
  obtain ⟨σ3, h3⟩ := hh .afterUpdate objs
    (some (fetchByPks model σ (objs.map (fun o => o.pk)))) ⟨model.name⟩ σ2
  have hrun : bulk_update env model objs fields bs false σ
      = (.ok objs, σ3,
          [Ev.fetchOriginals (objs.map (fun o => o.pk)),
           Ev.hook .beforeUpdate objs
             (some (fetchByPks model σ (objs.map (fun o => o.pk)))) ⟨model.name⟩]
            ++ (chunksOf CHUNK_SIZE objs).map (fun c => Ev.rawUpdate c fields)
            ++ [Ev.hook .afterUpdate objs
                 (some (fetchByPks model σ (objs.map (fun o => o.pk)))) ⟨model.name⟩]) := by
    simp [bulk_update, atomicM, hne, ht, h1, h2, h3]
  refine ⟨?_, ?_, ?_, ?_⟩
  · rw [hrun]
    simp [List.filter_append, isHookEv, isFetchEv,
      (map_rawUpdate_filters (chunksOf CHUNK_SIZE objs) fields).1]
  · rw [hrun]
    simp [List.filter_append, isHookEv, isFetchEv, isRawUpdateEv,
      (map_rawUpdate_filters (chunksOf CHUNK_SIZE objs) fields).2]
  · intro c hc
    simp [chunksOf] at hc
    obtain ⟨i, hi, rfl⟩ := hc
    rw [List.length_take]
    exact min_le_left _ _
  · have h2c : 2 ≤ (objs.length + CHUNK_SIZE - 1) / CHUNK_SIZE := by
      unfold CHUNK_SIZE
      omega
    simpa [chunksOf] using h2c

/-- C1 witness: a 201-element batch under the always-succeeding environment
crosses a chunk boundary yet sees one BEFORE_UPDATE and one AFTER_UPDATE. -/
theorem bulk_update_hooks_whole_batch_witness :
    ((bulk_update envId M0 objs201 ["val"] none false db0).2.2).filter isHookEv
        = [Ev.hook .beforeUpdate objs201
             (some (fetchByPks M0 db0 (objs201.map (fun o => o.pk)))) ⟨M0.name⟩,
           Ev.hook .afterUpdate objs201
             (some (fetchByPks M0 db0 (objs201.map (fun o => o.pk)))) ⟨M0.name⟩]
      ∧ ((bulk_update envId M0 objs201 ["val"] none false db0).2.2).filter isRawUpdateEv
        = (chunksOf CHUNK_SIZE objs201).map (fun c => Ev.rawUpdate c ["val"])
      ∧ (∀ c ∈ chunksOf CHUNK_SIZE objs201, c.length ≤ CHUNK_SIZE)
      ∧ 2 ≤ (chunksOf CHUNK_SIZE objs201).length :=
  bulk_update_hooks_whole_batch envId M0 objs201 ["val"] none db0
    (by norm_num [objs201, List.length_replicate])
    (by
      rw [show objs201 = List.replicate 201 o1 from rfl, List.any_eq_false]
      intro x hx
      have hx1 : x = o1 := List.eq_of_mem_replicate hx
      subst hx1
      decide)
    (fun _ _ _ _ σ1 => ⟨σ1, rfl⟩)
    (fun σ1 _ => ⟨σ1, rfl⟩)

/-- C5: For the empty input batch, `bulk_update` and `bulk_delete` return an
empty sequence while performing zero hook invocations and zero storage calls
(empty trace, storage state untouched). -/
theorem empty_input_short_circuits (env : Env) (model : ModelCls)
    (fields : List String) (bs : Option Nat) (byp : Bool) (σ : DB) :
    bulk_update env model [] fields bs byp σ = (.ok [], σ, [])
      ∧ bulk_delete env model [] bs byp σ = (.ok [], σ, []) :=
  ⟨rfl, rfl⟩

/-- C3: A batch containing an element that is not an instance of the bound
model makes `bulk_create`, `bulk_update` and `bulk_delete` (hooks not
bypassed) raise the type-mismatch error with an empty event trace — no hook
invocation, no storage call — and storage unchanged. -/
theorem type_mismatch_fails_fast (env : Env) (model : ModelCls) (objs : List Obj)
    (fields : List String) (bs : Option Nat) (ic : Bool) (σ : DB)
    (h : objs.any (fun o => o.ofType != model.name) = true) :
    bulk_update env model objs fields bs false σ
        = (.error (Err.typeError "bulk_update" model.name), σ, [])
      ∧ bulk_create env model objs bs ic false σ
        = (.error (Err.typeError "bulk_create" model.name), σ, [])
      ∧ bulk_delete env model objs bs false σ
        = (.error (Err.typeError "bulk_delete" model.name), σ, []) :=
  typeMismatch_general env model objs fields bs ic false σ h

/-- C3 witness: a concrete mismatched batch under the always-succeeding
environment. -/
theorem type_mismatch_fails_fast_witness :
    bulk_update envId M0 [o1, oBad] [] none false db0
        = (.error (Err.typeError "bulk_update" M0.name), db0, [])
      ∧ bulk_create envId M0 [o1, oBad] none false false db0
        = (.error (Err.typeError "bulk_create" M0.name), db0, [])
      ∧ bulk_delete envId M0 [o1, oBad] none false db0
        = (.error (Err.typeError "bulk_delete" M0.name), db0, []) :=
  type_mismatch_fails_fast envId M0 [o1, oBad] [] none false db0 (by decide)

/-- C9: type validation is not disabled by the hook bypass — with
`bypass_hooks = True` a mismatched batch still raises the type-mismatch
error, with an empty trace (no storage write) and storage unchanged. -/
theorem bypass_does_not_skip_type_check (env : Env) (model : ModelCls)
    (objs : List Obj) (fields : List String) (bs : Option Nat) (ic : Bool) (σ : DB)
    (h : objs.any (fun o => o.ofType != model.name) = true) :
    bulk_update env model objs fields bs true σ
        = (.error (Err.typeError "bulk_update" model.name), σ, [])
      ∧ bulk_create env model objs bs ic true σ
        = (.error (Err.typeError "bulk_create" model.name), σ, [])
      ∧ bulk_delete env model objs bs true σ
        = (.error (Err.typeError "bulk_delete" model.name), σ, []) :=
  typeMismatch_general env model objs fields bs ic true σ h

/-- C9 witness: a concrete mismatched batch, hooks bypassed. -/
theorem bypass_does_not_skip_type_check_witness :
    bulk_update envId M0 [oBad] [] none true db0
        = (.error (Err.typeError "bulk_update" M0.name), db0, [])
      ∧ bulk_create envId M0 [oBad] none false true db0
        = (.error (Err.typeError "bulk_create" M0.name), db0, [])
      ∧ bulk_delete envId M0 [oBad] none true db0
        = (.error (Err.typeError "bulk_delete" M0.name), db0, []) :=
  bypass_does_not_skip_type_check envId M0 [oBad] [] none false db0 (by decide)

/-- C2: every manager method either completes and returns, or raises; on a
raise the persisted state is exactly the entry state (full rollback, no
partial chunk commits survive).  Moreover the error propagates unmodified:
if the BEFORE_CREATE hook chain raises `e`, a non-bypassed `bulk_create` on
a type-valid batch surfaces exactly `e`. -/
theorem manager_rollback_on_error (env : Env) (model : ModelCls)
    (objs : List Obj) (fields : List String) (bs : Option Nat) (ic byp : Bool)
    (kwargs : List (String × Int)) (obj : Obj) :
    rollsBack (bulk_create env model objs bs ic byp)
      ∧ rollsBack (bulk_update env model objs fields bs byp)
      ∧ rollsBack (bulk_delete env model objs bs byp)
      ∧ rollsBack (update env model kwargs)
      ∧ rollsBack (delete env model)
      ∧ rollsBack (save env model obj)
      ∧ (∀ e σ, objs.any (fun o => o.ofType != model.name) = false →
          (∀ os og c σ1, env.hooks model .beforeCreate os og c σ1 = .error e) →
          (bulk_create env model objs bs ic false σ).1 = .error e) := by
  refine ⟨atomicM_rollsBack _, atomicM_rollsBack _, atomicM_rollsBack _,
    atomicM_rollsBack _, atomicM_rollsBack _, atomicM_rollsBack _, ?_⟩
  intro e σ ht hh
  simp [bulk_create, atomicM, ht, hh]

/-- C2 witness: under an environment whose hook chains always raise, a
concrete failing `bulk_create` leaves the storage state exactly as it was. -/
theorem manager_rollback_on_error_witness :
    (bulk_create envBoom M0 [o1] none false false db0).2.1 = db0 := by
  have h := (manager_rollback_on_error envBoom M0 [o1] [] none false false [] o1).1
  exact h db0 (Err.external "boom") (bulk_create envBoom M0 [o1] none false false db0).2.1
    [Ev.hook .beforeCreate [o1] none ⟨"T"⟩] rfl

/-- C8: unlike `bulk_update` and `bulk_delete`, `bulk_create` does not
short-circuit on empty input: with hooks enabled it still builds a context
and invokes the BEFORE_CREATE and AFTER_CREATE phases, each on an empty
batch, before returning an empty list (and makes no storage call). -/
theorem bulk_create_empty_still_runs_hooks (env : Env) (model : ModelCls)
    (bs : Option Nat) (ic : Bool) (σ : DB)
    (hh : ∀ ev og c σ1, ∃ σ2, env.hooks model ev [] og c σ1 = .ok σ2) :
    ∃ σ', bulk_create env model [] bs ic false σ
      = (.ok [], σ',
          [Ev.hook .beforeCreate [] none ⟨model.name⟩,
           Ev.hook .afterCreate [] none ⟨model.name⟩]) := by
  obtain ⟨σ1, h1⟩ := hh .beforeCreate none ⟨model.name⟩ σ
  obtain ⟨σ2, h2⟩ := hh .afterCreate none ⟨model.name⟩ σ1
  refine ⟨σ2, ?_⟩
  simp [bulk_create, atomicM, h1, h2, chunksOf, createChunks]

/-- C8 witness: concrete empty-batch `bulk_create` under the
always-succeeding environment. -/
theorem bulk_create_empty_still_runs_hooks_witness :
    ∃ σ', bulk_create envId M0 [] none false false db0
      = (.ok [], σ',
          [Ev.hook .beforeCreate [] none ⟨M0.name⟩,
           Ev.hook .afterCreate [] none ⟨M0.name⟩]) :=
  bulk_create_empty_still_runs_hooks envId M0 none false db0
    (fun _ _ _ σ1 => ⟨σ1, rfl⟩)

/-- C6: with `bypass_hooks = True`, the three bulk methods perform zero hook
invocations (and `bulk_update` no originals fetch): the trace holds no hook
or fetch event, and each call is exactly the validated raw write — the
chunked raw update/create loop, or the single raw delete — with rollback on
a storage error. -/
theorem bypass_hooks_skips_phases (env : Env) (model : ModelCls)
    (objs : List Obj) (fields : List String) (bs : Option Nat) (ic : Bool) (σ : DB)
    (h : objs.any (fun o => o.ofType != model.name) = false)
    (hne : objs ≠ []) :
    (bulk_create env model objs bs ic true σ).2.2.filter isHookEv = []
      ∧ (bulk_update env model objs fields bs true σ).2.2.filter isHookEv = []
      ∧ (bulk_delete env model objs bs true σ).2.2.filter isHookEv = []
      ∧ (bulk_update env model objs fields bs true σ).2.2.filter isFetchEv = []
      ∧ bulk_create env model objs bs ic true σ
        = (match createChunks env bs ic (chunksOf CHUNK_SIZE objs) σ with
           | (.error e, _, tr) => (.error e, σ, tr)
           | (.ok res, σ1, tr) => (.ok res, σ1, tr))
      ∧ bulk_update env model objs fields bs true σ
        = (match updateChunks env fields bs (chunksOf CHUNK_SIZE objs) σ with
           | (.error e, _, tr) => (.error e, σ, tr)
           | (.ok _, σ1, tr) => (.ok objs, σ1, tr))
      ∧ bulk_delete env model objs bs true σ
        = (match env.rawDelete σ (objs.filterMap (fun o => o.pk)) with
           | .error e => (.error e, σ, [Ev.rawDelete (objs.filterMap (fun o => o.pk))])
           | .ok σ1 => (.ok objs, σ1, [Ev.rawDelete (objs.filterMap (fun o => o.pk))])) := by
  have hni : objs.isEmpty = false := ne_nil_isEmpty_false objs hne
  have hcr : (bulk_create env model objs bs ic true σ).2.2
      = (createChunks env bs ic (chunksOf CHUNK_SIZE objs) σ).2.2 := by
    rw [bulk_create, atomicM_trace]
    simp [h]
  have hup : (bulk_update env model objs fields bs true σ).2.2
      = (updateChunks env fields bs (chunksOf CHUNK_SIZE objs) σ).2.2 := by
    rw [bulk_update, atomicM_trace]
    rcases hc : updateChunks env fields bs (chunksOf CHUNK_SIZE objs) σ with ⟨r, σ1, tr⟩
    cases r <;> simp [hni, h, hc]
  refine ⟨?_, ?_, ?_, ?_, ?_, ?_, ?_⟩
  · rw [hcr]
    exact (filter_hook_of_raw _ (fun e he =>
      Or.inr (Or.inl (createChunks_trace_raw env bs ic _ σ e he)))).1
  · rw [hup]
    exact (filter_hook_of_raw _ (fun e he =>
      Or.inl (updateChunks_trace_raw env fields bs _ σ e he))).1
  · rw [bulk_delete, atomicM_trace]
    rcases hd : env.rawDelete σ (objs.filterMap (fun o => o.pk)) with e | σ1 <;>
      simp [hni, h, hd, isHookEv]
  · rw [hup]
    exact (filter_hook_of_raw _ (fun e he =>
      Or.inl (updateChunks_trace_raw env fields bs _ σ e he))).2
  · rcases hc : createChunks env bs ic (chunksOf CHUNK_SIZE objs) σ with ⟨r, σ1, tr⟩
    cases r <;> simp [bulk_create, atomicM, h, hc]
  · rcases hc : updateChunks env fields bs (chunksOf CHUNK_SIZE objs) σ with ⟨r, σ1, tr⟩
    cases r <;> simp [bulk_update, atomicM, hni, h, hc]
  · rcases hd : env.rawDelete σ (objs.filterMap (fun o => o.pk)) with e | σ1 <;>
      simp [bulk_delete, atomicM, hni, h, hd]

/-- C6 witness: a concrete type-valid batch, hooks bypassed: no hook phase
runs in any of the three methods. -/
theorem bypass_hooks_skips_phases_witness :
    (bulk_create envId M0 [o1] none false true db0).2.2.filter isHookEv = []
      ∧ (bulk_update envId M0 [o1] ["val"] none true db0).2.2.filter isHookEv = []
      ∧ (bulk_delete envId M0 [o1] none true db0).2.2.filter isHookEv = []
      ∧ (bulk_update envId M0 [o1] ["val"] none true db0).2.2.filter isFetchEv = [] := by
  have h := bypass_hooks_skips_phases envId M0 [o1] ["val"] none false db0
    (by decide) (by decide)
  exact ⟨h.1, h.2.1, h.2.2.1, h.2.2.2.1⟩

/-- C7: on a non-empty type-valid batch with hooks enabled (hook chains and
the raw delete succeeding), `bulk_delete` runs BEFORE_DELETE, issues exactly
one unchunked storage delete targeting precisely the non-null primary keys
of objs, then runs AFTER_DELETE over the original objs with the same context,
and returns objs. -/
theorem bulk_delete_single_delete (env : Env) (model : ModelCls)
    (objs : List Obj) (bs : Option Nat) (σ : DB)
    (hne : objs ≠ [])
    (ht : objs.any (fun o => o.ofType != model.name) = false)
    (hh : ∀ ev os og c σ1, ∃ σ2, env.hooks model ev os og c σ1 = .ok σ2)
    (hd : ∀ σ1 pks, ∃ σ2, env.rawDelete σ1 pks = .ok σ2) :
    ∃ σ', bulk_delete env model objs bs false σ
      = (.ok objs, σ',
          [Ev.hook .beforeDelete objs none ⟨model.name⟩,
           Ev.rawDelete (objs.filterMap (fun o => o.pk)),
           Ev.hook .afterDelete objs none ⟨model.name⟩]) := by
  have hni : objs.isEmpty = false := ne_nil_isEmpty_false objs hne
  obtain ⟨σ1, h1⟩ := hh .beforeDelete objs none ⟨model.name⟩ σ
  obtain ⟨σ2, h2⟩ := hd σ1 (objs.filterMap (fun o => o.pk))
  obtain ⟨σ3, h3⟩ := hh .afterDelete objs none ⟨model.name⟩ σ2
  exact ⟨σ3, by simp [bulk_delete, atomicM, hni, ht, h1, h2, h3]⟩

/-- C7 witness: a concrete singleton delete under the always-succeeding
environment. -/
theorem bulk_delete_single_delete_witness :
    ∃ σ', bulk_delete envId M0 [o1] none false db0
      = (.ok [o1],  σ',
          [Ev.hook .beforeDelete [o1] none ⟨M0.name⟩,
           Ev.rawDelete ([o1].filterMap (fun o => o.pk)),
           Ev.hook .afterDelete [o1] none ⟨M0.name⟩]) :=
  bulk_delete_single_delete envId M0 [o1] none db0 (by decide) (by decide)
    (fun _ _ _ _ σ1 => ⟨σ1, rfl⟩) (fun σ1 _ => ⟨σ1, rfl⟩)

/-- C4 counterexample: the claim predicts that `save` on an object with an
assigned (non-None) primary key issues one `bulk_update` whose `fields` are
all the model's fields except the primary-key field.  On a model whose
primary-key field is named `key` (not `id`) the source's literal
`f.name != "id"` filter keeps the pk field, so the traces differ; and on an
object with the assigned-but-falsy pk `0`, `save` routes to `bulk_create`,
not `bulk_update`, so the traces differ again. -/
theorem save_pk_field_counterexample :
    (save envId MK oK db0).2.2
        ≠ (bulk_update envId MK [oK]
            (MK.metaFields.filter (fun f => f != MK.pkField)) none false db0).2.2
      ∧ (save envId M0 oZ db0).2.2
        ≠ (bulk_update envId M0 [oZ]
            (M0.metaFields.filter (fun f => f != M0.pkField)) none false db0).2.2 := by
  decide

/-- C4 (amended): `save(obj)` with a falsy primary key (None or 0) is exactly
one `bulk_create` call on the singleton batch `[obj]`; with a truthy primary
key it is exactly one `bulk_update` call on `[obj]` whose fields list is all
of the entity's fields excluding those literally named `"id"`; in both cases
a successful `save` returns obj. -/
theorem save_routing_amended (env : Env) (model : ModelCls) (obj : Obj) (σ : DB) :
    (pkTruthy obj.pk = false →
        save env model obj σ
          = mapOutcome obj (bulk_create env model [obj] none false false σ))
      ∧ (pkTruthy obj.pk = true →
        save env model obj σ
          = mapOutcome obj (bulk_update env model [obj]
              (model.metaFields.filter (fun f => f != "id")) none false σ))
      ∧ (∀ r σ' tr, save env model obj σ = (.ok r, σ', tr) → r = obj) := by
  refine ⟨save_eq_create env model obj σ, save_eq_update env model obj σ, ?_⟩
  intro r σ' tr h
  cases hp : pkTruthy obj.pk with
  | false =>
    rw [save_eq_create env model obj σ hp] at h
    rcases hbc : bulk_create env model [obj] none false false σ with ⟨rc, σ1, tr1⟩
    rw [hbc] at h
    cases rc <;> simp [mapOutcome] at h
    exact h.1.symm
  | true =>
    rw [save_eq_update env model obj σ hp] at h
    rcases hbu : bulk_update env model [obj]
        (model.metaFields.filter (fun f => f != "id")) none false σ with ⟨rc, σ1, tr1⟩
    rw [hbu] at h
    cases rc <;> simp [mapOutcome] at h
    exact h.1.symm

/-- C4 amended witness: concrete routing for a None pk and for a truthy pk. -/
theorem save_routing_amended_witness :
    save envId M0 oNone db0
        = mapOutcome oNone (bulk_create envId M0 [oNone] none false false db0)
      ∧ save envId M0 o1 db0
        = mapOutcome o1 (bulk_update envId M0 [o1]
            (M0.metaFields.filter (fun f => f != "id")) none false db0) :=
  ⟨(save_routing_amended envId M0 oNone db0).1 (by decide),
   (save_routing_amended envId M0 o1 db0).2.1 (by decide)⟩

/-- C10: `save` branches on the Python truthiness of `obj.pk`, not on its
being None: every falsy pk representable in the model (None or 0) routes to
`bulk_create`; only a truthy pk routes to `bulk_update`. -/
theorem save_branches_on_truthiness (env : Env) (model : ModelCls)
    (obj : Obj) (σ : DB) :
    ((obj.pk = none ∨ obj.pk = some 0) →
        save env model obj σ
          = mapOutcome obj (bulk_create env model [obj] none false false σ))
      ∧ (∀ v : Int, obj.pk = some v → v ≠ 0 →
        save env model obj σ
          = mapOutcome obj (bulk_update env model [obj]
              (model.metaFields.filter (fun f => f != "id")) none false σ)) := by
  constructor
  · intro h
    apply save_eq_create
    rcases h with h | h <;> simp [pkTruthy, h]
  · intro v hv hnz
    apply save_eq_update
    simp [pkTruthy, hv, hnz]

/-- C10 witness: the assigned-but-falsy pk `0` routes to `bulk_create`; the
truthy pk `2` routes to `bulk_update`. -/
theorem save_branches_on_truthiness_witness :
    save envId M0 oZ db0
        = mapOutcome oZ (bulk_create envId M0 [oZ] none false false db0)
      ∧ save envId M0 o2 db0
        = mapOutcome o2 (bulk_update envId M0 [o2]
            (M0.metaFields.filter (fun f => f != "id")) none false db0) :=
  ⟨(save_branches_on_truthiness envId M0 oZ db0).1 (Or.inr rfl),
   (save_branches_on_truthiness envId M0 o2 db0).2 2 rfl (by decide)⟩
